import Mathlib

/-!
Shallow embedding of `rclcpp/src/rclcpp/clock.cpp` (the `rclcpp::Clock` /
`rclcpp::JumpHandler` implementation) and proofs about it.

Modelling conventions:
* Calls into the `rcl` backend (`rcl_clock_init`, `rcl_clock_get_now`,
  `rcl_clock_valid`, `rcl_is_enabled_ros_time_override`,
  `rcl_clock_add_jump_callback`, `rcl_clock_remove_jump_callback`,
  `rcl_clock_fini`) are modelled by an environment `RclEnv` recording the
  return code / output each call would produce.
* Side effects (log messages, backend calls, allocation and deallocation)
  are recorded in explicit effect traces (`List Eff`), so "exactly once",
  "no-op", "only logged" become statements about traces.
* `std::shared_ptr` / `std::weak_ptr` reference counting of the
  `rcl_clock_t` allocation is modelled by a `ClockCell` carrying a strong
  count and a weak count, with the custom deleter `rcl_clock_deleter`
  firing exactly when the strong count drops from one to zero.
* C++ exceptions (`throw_from_rcl_error`) become `Except RclError`.
-/

set_option linter.unusedVariables false

/-- Return code of an rcl call, as in `rcl_ret_t`. -/
abbrev RclRet := Nat

/-- The success return code `RCL_RET_OK`. -/
def RCL_RET_OK : RclRet := 0

/-- The clock type enumeration `rcl_clock_type_t`. -/
inductive RclClockType where
  | uninitialized
  | rosTime
  | systemTime
  | steadyTime
deriving DecidableEq, Repr

/-- The jump description `rcl_time_jump_t`: what kind of clock change
happened and the signed delta in nanoseconds. -/
structure RclTimeJump where
  clock_change : Nat
  delta : Int
deriving DecidableEq, Repr

/-- The threshold configuration `rcl_jump_threshold_t`. -/
structure JumpThreshold where
  on_clock_change : Bool
  min_forward : Int
  min_backward : Int
deriving DecidableEq, Repr

/-- Model of `rclcpp::JumpHandler`: a pre-jump callback, a post-jump callback and a
threshold.  The `std::function` callbacks are modelled by their presence
(truthiness), which is all `Clock::on_time_jump` inspects. -/
structure JumpHandler where
  has_pre_callback : Bool
  has_post_callback : Bool
  notice_threshold : JumpThreshold
deriving DecidableEq, Repr

/-- Observable callback invocations produced by one dispatch of
`Clock::on_time_jump`. -/
inductive DispatchEffect where
  | preInvoked
  | postInvoked (jump : RclTimeJump)
deriving DecidableEq, Repr

/-- Observable side effects of the clock implementation: log lines,
backend calls, allocations and deallocations. -/
inductive Eff where
  | logError (msg : String)
  | rclClockFini
  | deleteRclClock
  | rclAddJumpCallback
  | rclRemoveJumpCallback
  | allocJumpHandler
  | deleteJumpHandler
deriving DecidableEq, Repr

/-- An error surfaced through `rclcpp::exceptions::throw_from_rcl_error`:
the underlying rcl return code plus the message supplied at the throw
site. -/
structure RclError where
  ret : RclRet
  message : String
deriving DecidableEq, Repr

/-- Model of `rclcpp::Time` as observed through `Clock::now`: a nanosecond count
and the clock type it was read from. -/
structure Time where
  nanoseconds : Int
  clock_type : RclClockType
deriving DecidableEq, Repr

/-- The state of the `rcl_clock_t` object owned by a clock: its `type`
field, which is all the embedded code reads from it directly. -/
structure RclClockState where
  type : RclClockType
deriving DecidableEq, Repr

/-- Model of `rclcpp::Clock`: owns (via `shared_ptr`) one `rcl_clock_t`. -/
structure Clock where
  rcl_clock : RclClockState
deriving DecidableEq, Repr

/-- Environment fixing the outcome of each rcl backend call made by the
embedded code. -/
structure RclEnv where
  init_ret : RclRet
  get_now_ret : RclRet
  now_nanoseconds : Int
  clock_valid : Bool
  override_enabled : Bool
  override_query_ret : RclRet
  add_jump_ret : RclRet
  remove_jump_ret : RclRet
  fini_ret : RclRet
deriving Repr

/-- The custom deleter `rcl_clock_deleter` installed on the `shared_ptr`
holding the `rcl_clock_t`: calls `rcl_clock_fini`, logs on failure, then
frees the allocation. -/
def rcl_clock_deleter (env : RclEnv) : List Eff :=
  Eff.rclClockFini ::
    ((if env.fini_ret ≠ RCL_RET_OK then [Eff.logError "Failed to fini rcl clock."] else [])
      ++ [Eff.deleteRclClock])

/-- The constructor `Clock::Clock(rcl_clock_type_t)`: allocates an
`rcl_clock_t`, wraps it in a `shared_ptr` with `rcl_clock_deleter`, then
calls `rcl_clock_init`.  On failure `throw_from_rcl_error` throws, so no
`Clock` object is produced; on success the backend is initialized with
the requested type. -/
def Clock.construct (clock_type : RclClockType) (env : RclEnv) : Except RclError Clock :=
  if env.init_ret ≠ RCL_RET_OK then
    .error { ret := env.init_ret, message := "could not get current time stamp" }
  else
    .ok { rcl_clock := { type := clock_type } }

/-- Model of `Clock::now()`: builds `Time now(0, 0, rcl_clock_->type)`, asks the
backend for the current nanoseconds, throws on failure, otherwise
returns the filled-in time. -/
def Clock.now (c : Clock) (env : RclEnv) : Except RclError Time :=
  let now0 : Time := { nanoseconds := 0, clock_type := c.rcl_clock.type }
  if env.get_now_ret ≠ RCL_RET_OK then
    .error { ret := env.get_now_ret, message := "could not get current time stamp" }
  else
    .ok { now0 with nanoseconds := env.now_nanoseconds }

/-- Result of `Clock::ros_time_is_active`: either a boolean or a thrown
error, together with the log lines emitted on the way. -/
structure BoolQueryOutcome where
  result : Except RclError Bool
  logs : List String
deriving Repr

/-- Model of `Clock::ros_time_is_active()`: if `rcl_clock_valid` reports the clock
invalid, log an error and return `false`; otherwise query
`rcl_is_enabled_ros_time_override`, throwing if the query itself fails. -/
def Clock.ros_time_is_active (c : Clock) (env : RclEnv) : BoolQueryOutcome :=
  if !env.clock_valid then
    { result := .ok false, logs := ["ROS time not valid!"] }
  else if env.override_query_ret ≠ RCL_RET_OK then
    { result := .error { ret := env.override_query_ret,
                         message := "Failed to check ros_time_override_status" },
      logs := [] }
  else
    { result := .ok env.override_enabled, logs := [] }

/-- Model of `Clock::get_clock_type() const noexcept`: reads `rcl_clock_->type`.
It is a total pure function: it cannot throw and, taking the clock by
value and returning only the type, touches no state. -/
def Clock.get_clock_type (c : Clock) : RclClockType :=
  c.rcl_clock.type

/-- How a registration refers back to the clock backend: via a strong
(`shared_ptr`) or a weak (`weak_ptr`) reference. -/
inductive ClockRef where
  | strong
  | weak
deriving DecidableEq, Repr

/-- The shareable token returned by `Clock::create_jump_callback`: a
`shared_ptr<JumpHandler>` whose custom deleter captured a reference back
to the clock's `rcl_clock_t`.  `deleter_clock_ref` records which kind of
reference the deleter holds (the source captures `weak_clock`, a
`std::weak_ptr<rcl_clock_t>` copy of `rcl_clock_`). -/
structure JumpHandlerToken where
  handler : JumpHandler
  deleter_clock_ref : ClockRef
deriving DecidableEq, Repr

/-- Result of `Clock::create_jump_callback`: the returned token or the
thrown error, together with the effect trace (allocation, backend call,
and deallocation-by-unwinding on the error path). -/
structure RegistrationOutcome where
  result : Except RclError JumpHandlerToken
  trace : List Eff
deriving Repr

/-- Model of `Clock::create_jump_callback(pre, post, threshold)`: allocates a
`JumpHandler` held by a `unique_ptr`, asks the backend to add the jump
callback, and on failure throws — unwinding destroys the `unique_ptr`,
freeing the handler before the error reaches the caller.  On success it
releases the handler into a `shared_ptr` token whose deleter captured a
weak reference to the clock. -/
def Clock.create_jump_callback (c : Clock) (env : RclEnv)
    (has_pre has_post : Bool) (threshold : JumpThreshold) : RegistrationOutcome :=
  let handler : JumpHandler :=
    { has_pre_callback := has_pre, has_post_callback := has_post,
      notice_threshold := threshold }
  if env.add_jump_ret ≠ RCL_RET_OK then
    { result := .error { ret := env.add_jump_ret,
                         message := "Failed to add time jump callback" },
      trace := [Eff.allocJumpHandler, Eff.rclAddJumpCallback, Eff.deleteJumpHandler] }
  else
    { result := .ok { handler := handler, deleter_clock_ref := ClockRef.weak },
      trace := [Eff.allocJumpHandler, Eff.rclAddJumpCallback] }

/-- The static dispatch entry point `Clock::on_time_jump(time_jump,
before_jump, user_data)`: `user_data` is the registered `JumpHandler`
pointer (possibly null).  Returns the callback invocations performed. -/
def Clock.on_time_jump (time_jump : RclTimeJump) (before_jump : Bool)
    (user_data : Option JumpHandler) : List DispatchEffect :=
  match user_data with
  | none => []
  | some handler =>
    if before_jump && handler.has_pre_callback then
      [DispatchEffect.preInvoked]
    else if !before_jump && handler.has_post_callback then
      [DispatchEffect.postInvoked time_jump]
    else
      []

/-- Reference-counting state of the shared `rcl_clock_t` allocation:
strong count (one per `Clock` copy aliasing it, plus temporaries), weak
count (one per registered handler deleter), whether `rcl_clock_fini` has
run and whether the allocation has been freed. -/
structure ClockCell where
  strong_count : Nat
  weak_count : Nat
  finalized : Bool
  freed : Bool
deriving DecidableEq, Repr

/-- Releasing one strong reference to the `rcl_clock_t` (destruction of
one `Clock` aliasing it): `shared_ptr` semantics run the custom deleter
`rcl_clock_deleter` exactly when the strong count drops from one to
zero. -/
def releaseStrongRef (env : RclEnv) (cell : ClockCell) : ClockCell × List Eff :=
  match cell.strong_count with
  | 0 => (cell, [])
  | 1 => ({ cell with strong_count := 0, finalized := true, freed := true },
          rcl_clock_deleter env)
  | n + 2 => ({ cell with strong_count := n + 1 }, [])

/-- Releasing `n` strong references in sequence, accumulating the effect
trace. -/
def releaseStrongRefs (env : RclEnv) : Nat → ClockCell → ClockCell × List Eff
  | 0, cell => (cell, [])
  | n + 1, cell =>
    let step := releaseStrongRef env cell
    let rest := releaseStrongRefs env n step.1
    (rest.1, step.2 ++ rest.2)

/-- Effect of `create_jump_callback` on the clock cell: the deleter of the
returned token captures `std::weak_ptr<rcl_clock_t> weak_clock =
rcl_clock_`, which increments only the weak count. -/
def registerTokenRefs (cell : ClockCell) : ClockCell :=
  { cell with weak_count := cell.weak_count + 1 }

/-- The custom deleter of the token returned by `create_jump_callback`
(the `noexcept` lambda capturing `weak_clock`): locks the weak reference;
if the backend is still alive (strong count positive) it calls
`rcl_clock_remove_jump_callback`, logging on failure; in every case it
deletes the handler.  Locking succeeds exactly when some strong
reference is still held. -/
def jump_handler_deleter (env : RclEnv) (cell : ClockCell) : List Eff :=
  (if 0 < cell.strong_count then
    Eff.rclRemoveJumpCallback ::
      (if env.remove_jump_ret ≠ RCL_RET_OK then
        [Eff.logError "Failed to remove time jump callback"]
      else [])
  else [])
  ++ [Eff.deleteJumpHandler]

/-- Releasing one owning reference to a `JumpHandler::SharedPtr` token
when `count` references are held: the custom deleter
`jump_handler_deleter` runs exactly when the count drops from one to
zero. -/
def releaseTokenRef (env : RclEnv) (cell : ClockCell) (count : Nat) : Nat × List Eff :=
  match count with
  | 0 => (0, [])
  | 1 => (0, jump_handler_deleter env cell)
  | n + 2 => (n + 1, [])

/-- Releasing `k` owning token references in sequence starting from
`count` held references, accumulating the effect trace. -/
def releaseTokenRefs (env : RclEnv) (cell : ClockCell) : Nat → Nat → Nat × List Eff
  | 0, count => (count, [])
  | k + 1, count =>
    let step := releaseTokenRef env cell count
    let rest := releaseTokenRefs env cell k step.1
    (rest.1, step.2 ++ rest.2)

/-- A sample environment in which every backend call succeeds. -/
def envOK : RclEnv :=
  { init_ret := 0, get_now_ret := 0, now_nanoseconds := 42,
    clock_valid := true, override_enabled := true, override_query_ret := 0,
    add_jump_ret := 0, remove_jump_ret := 0, fini_ret := 0 }

/-- A sample environment in which every backend call fails with code 1
and the clock reports itself invalid. -/
def envBad : RclEnv :=
  { init_ret := 1, get_now_ret := 1, now_nanoseconds := 0,
    clock_valid := false, override_enabled := false, override_query_ret := 1,
    add_jump_ret := 1, remove_jump_ret := 1, fini_ret := 1 }

/-- A sample clock cell with three strong references and no weak ones. -/
def cell3 : ClockCell :=
  { strong_count := 3, weak_count := 0, finalized := false, freed := false }

/-- A sample clock built over a steady time source. -/
def steadyClock : Clock :=
  { rcl_clock := { type := RclClockType.steadyTime } }

/-- A sample threshold configuration. -/
def thSample : JumpThreshold :=
  { on_clock_change := true, min_forward := 0, min_backward := 0 }

/-- The token `create_jump_callback` returns for two present callbacks and
`thSample` when arming succeeds. -/
def tokenSample : JumpHandlerToken :=
  { handler := { has_pre_callback := true, has_post_callback := true,
                 notice_threshold := thSample },
    deleter_clock_ref := ClockRef.weak }

/-- C1: the dispatch entry point is a no-op on a null handler; with a
handler present, a before-jump invocation runs the pre-jump callback
exactly when one is present and never the post-jump callback, and an
after-jump invocation runs the post-jump callback with the given jump
description exactly when one is present and never the pre-jump
callback. -/
theorem claim_C1 (tj : RclTimeJump) (before_jump : Bool) (h : JumpHandler) :
    Clock.on_time_jump tj before_jump none = []
    ∧ Clock.on_time_jump tj true (some h) =
        (if h.has_pre_callback then [DispatchEffect.preInvoked] else [])
    ∧ Clock.on_time_jump tj false (some h) =
        (if h.has_post_callback then [DispatchEffect.postInvoked tj] else []) := by
  refine ⟨rfl, ?_, ?_⟩
  · cases hp : h.has_pre_callback <;> simp [Clock.on_time_jump, hp]
  · cases hq : h.has_post_callback <;> simp [Clock.on_time_jump, hq]

/-- C5: construction is atomic — if `rcl_clock_init` fails the
constructor throws that error and no `Clock` value is produced, and if it
succeeds the resulting `Clock` owns a backend of the requested type. -/
theorem claim_C5 (clock_type : RclClockType) (env : RclEnv) :
    (env.init_ret ≠ RCL_RET_OK →
      Clock.construct clock_type env =
        .error { ret := env.init_ret, message := "could not get current time stamp" })
    ∧ (env.init_ret = RCL_RET_OK →
      Clock.construct clock_type env = .ok { rcl_clock := { type := clock_type } }) := by
  constructor <;> intro hr <;> simp [Clock.construct, hr]

/-- Witness for C5 at concrete inputs: construction succeeds under
`envOK` yielding a steady clock, and fails under `envBad` with the
initialization error. -/
theorem claim_C5_witness :
    Clock.construct RclClockType.steadyTime envOK = .ok steadyClock
    ∧ Clock.construct RclClockType.steadyTime envBad =
        .error { ret := 1, message := "could not get current time stamp" } :=
  ⟨(claim_C5 RclClockType.steadyTime envOK).2 rfl,
   (claim_C5 RclClockType.steadyTime envBad).1 (by decide)⟩

/-- C6: `now` returns the backend's nanosecond reading tagged with this
clock's source type when the backend read succeeds, and throws the
time-query error (returning no `Time`) when it fails. -/
theorem claim_C6 (c : Clock) (env : RclEnv) :
    (env.get_now_ret = RCL_RET_OK →
      Clock.now c env =
        .ok { nanoseconds := env.now_nanoseconds, clock_type := c.rcl_clock.type })
    ∧ (env.get_now_ret ≠ RCL_RET_OK →
      Clock.now c env =
        .error { ret := env.get_now_ret, message := "could not get current time stamp" }) := by
  constructor <;> intro hr <;> simp [Clock.now, hr]

/-- Witness for C6 at concrete inputs: under `envOK` the steady clock
reads 42 nanoseconds tagged steady, and under `envBad` the read throws. -/
theorem claim_C6_witness :
    Clock.now steadyClock envOK =
      .ok { nanoseconds := 42, clock_type := RclClockType.steadyTime }
    ∧ Clock.now steadyClock envBad =
        .error { ret := 1, message := "could not get current time stamp" } :=
  ⟨(claim_C6 steadyClock envOK).1 rfl,
   (claim_C6 steadyClock envBad).2 (by decide)⟩

/-- C7: whenever the backend reports the clock state invalid,
`ros_time_is_active` returns `false` and emits the diagnostic log line
instead of throwing. -/
theorem claim_C7 (c : Clock) (env : RclEnv) (hinv : env.clock_valid = false) :
    Clock.ros_time_is_active c env =
      { result := .ok false, logs := ["ROS time not valid!"] } := by
  simp [Clock.ros_time_is_active, hinv]

/-- Witness for C7 at a concrete input: under `envBad` (invalid clock
state) the query degrades to `false` with the diagnostic. -/
theorem claim_C7_witness :
    Clock.ros_time_is_active steadyClock envBad =
      { result := .ok false, logs := ["ROS time not valid!"] } :=
  claim_C7 steadyClock envBad rfl

/-- C9: `get_clock_type` is a pure total accessor — on every successfully
constructed clock it returns the source type requested at construction;
its type (no environment, no error channel, no state output) reflects
that it cannot fail and mutates nothing. -/
theorem claim_C9 (clock_type : RclClockType) (env : RclEnv) (c : Clock)
    (hc : Clock.construct clock_type env = .ok c) :
    Clock.get_clock_type c = clock_type := by
  unfold Clock.construct at hc
  split at hc
  · exact Except.noConfusion hc
  · simp only [Except.ok.injEq] at hc
    subst hc
    rfl

/-- Witness for C9 at a concrete input: the clock constructed steady
under `envOK` reports the steady type. -/
theorem claim_C9_witness :
    Clock.get_clock_type steadyClock = RclClockType.steadyTime :=
  claim_C9 RclClockType.steadyTime envOK steadyClock rfl

/-- C3: if arming the backend dispatch fails, `create_jump_callback`
surfaces the registration error, and its trace shows the freshly
allocated handler freed (allocations and deallocations balance) before
the error reaches the caller; on success the returned shareable token
owns the handler (no deallocation in the trace) and carries the
constructed handler. -/
theorem claim_C3 (c : Clock) (env : RclEnv) (hp hq : Bool) (th : JumpThreshold) :
    (env.add_jump_ret ≠ RCL_RET_OK →
      (Clock.create_jump_callback c env hp hq th).result =
        .error { ret := env.add_jump_ret, message := "Failed to add time jump callback" }
      ∧ (Clock.create_jump_callback c env hp hq th).trace =
          [Eff.allocJumpHandler, Eff.rclAddJumpCallback, Eff.deleteJumpHandler]
      ∧ (Clock.create_jump_callback c env hp hq th).trace.count Eff.allocJumpHandler =
          (Clock.create_jump_callback c env hp hq th).trace.count Eff.deleteJumpHandler)
    ∧ (env.add_jump_ret = RCL_RET_OK →
      (Clock.create_jump_callback c env hp hq th).result =
        .ok { handler := { has_pre_callback := hp, has_post_callback := hq,
                           notice_threshold := th },
              deleter_clock_ref := ClockRef.weak }
      ∧ Eff.deleteJumpHandler ∉ (Clock.create_jump_callback c env hp hq th).trace) := by
  constructor <;> intro hr <;> simp [Clock.create_jump_callback, hr]

/-- Witness for C3 at concrete inputs: under `envBad` arming fails and
the trace frees the handler; under `envOK` the token is returned and
nothing is freed. -/
theorem claim_C3_witness :
    (Clock.create_jump_callback steadyClock envBad true true thSample).trace =
      [Eff.allocJumpHandler, Eff.rclAddJumpCallback, Eff.deleteJumpHandler]
    ∧ Eff.deleteJumpHandler ∉
        (Clock.create_jump_callback steadyClock envOK true true thSample).trace :=
  ⟨((claim_C3 steadyClock envBad true true thSample).1 (by decide)).2.1,
   ((claim_C3 steadyClock envOK true true thSample).2 rfl).2⟩

/-- C10: on every path of the token's custom deleter — backend already
destroyed, removal failing, or removal succeeding — the handler is freed
exactly once (and last); the deleter's total, error-free type reflects
the `noexcept` lambda, so release never raises. -/
theorem claim_C10 (env : RclEnv) (cell : ClockCell) :
    (jump_handler_deleter env cell).count Eff.deleteJumpHandler = 1
    ∧ (jump_handler_deleter env cell).getLast? = some Eff.deleteJumpHandler := by
  by_cases hs : 0 < cell.strong_count <;>
    by_cases hr : env.remove_jump_ret ≠ RCL_RET_OK <;>
      simp [jump_handler_deleter, hs, hr]

/-- One-step unfolding of `releaseTokenRefs`. -/
theorem releaseTokenRefs_succ (env : RclEnv) (cell : ClockCell) (k count : Nat) :
    releaseTokenRefs env cell (k + 1) count =
      ((releaseTokenRefs env cell k (releaseTokenRef env cell count).1).1,
       (releaseTokenRef env cell count).2 ++
         (releaseTokenRefs env cell k
           (releaseTokenRef env cell count).1).2) := rfl

/-- Releasing fewer token references than are held produces no effects
and leaves the remaining count. -/
theorem releaseTokenRefs_not_last (env : RclEnv) (cell : ClockCell) :
    ∀ k n, k < n →
      releaseTokenRefs env cell k n = (n - k, []) := by
  intro k
  induction k with
  | zero =>
    intro n _
    simp [releaseTokenRefs]
  | succ k ih =>
    intro n hk
    match n with
    | 0 => omega
    | 1 => omega
    | m + 2 =>
      rw [releaseTokenRefs_succ]
      have hstep : releaseTokenRef env cell (m + 2) = (m + 1, []) := rfl
      rw [hstep, ih (m + 1) (by omega)]
      simp

/-- Releasing all held token references runs the handler deleter exactly
once, as the whole effect trace. -/
theorem releaseTokenRefs_all (env : RclEnv) (cell : ClockCell) :
    ∀ n, (releaseTokenRefs env cell (n + 1) (n + 1)).2 =
      jump_handler_deleter env cell := by
  intro n
  induction n with
  | zero =>
    rw [releaseTokenRefs_succ]
    have hstep : releaseTokenRef env cell 1 = (0, jump_handler_deleter env cell) := rfl
    rw [hstep]
    simp [releaseTokenRefs]
  | succ n ih =>
    rw [releaseTokenRefs_succ]
    have hstep : releaseTokenRef env cell (n + 2) = (n + 1, []) := rfl
    rw [hstep]
    simpa using ih

/-- C2: for a token held by `n` owning references, releasing the first
`k < n` of them produces no effects, and releasing all `n` runs the
deleter exactly once, as the entire trace; that deleter is a no-op
toward the backend when the backend is gone (strong count zero), asks
the backend once to remove the dispatch entry when it is alive, and
turns a removal failure into a log line only, never an error (the
deleter is total and error-free). -/
theorem claim_C2 (env : RclEnv) (cell : ClockCell) (n k : Nat)
    (hn : 1 ≤ n) (hk : k < n) :
    (releaseTokenRefs env cell n n).2 = jump_handler_deleter env cell
    ∧ (releaseTokenRefs env cell k n).2 = []
    ∧ (cell.strong_count = 0 →
        jump_handler_deleter env cell = [Eff.deleteJumpHandler])
    ∧ (0 < cell.strong_count → env.remove_jump_ret ≠ RCL_RET_OK →
        jump_handler_deleter env cell =
          [Eff.rclRemoveJumpCallback,
           Eff.logError "Failed to remove time jump callback",
           Eff.deleteJumpHandler])
    ∧ (0 < cell.strong_count → env.remove_jump_ret = RCL_RET_OK →
        jump_handler_deleter env cell =
          [Eff.rclRemoveJumpCallback, Eff.deleteJumpHandler]) := by
  obtain ⟨m, rfl⟩ : ∃ m, n = m + 1 := ⟨n - 1, by omega⟩
  refine ⟨releaseTokenRefs_all env cell m, ?_, ?_, ?_, ?_⟩
  · rw [releaseTokenRefs_not_last env cell k (m + 1) hk]
  · intro hz
    simp [jump_handler_deleter, hz]
  · intro hpos hr
    simp [jump_handler_deleter, hpos, hr]
  · intro hpos hr
    simp [jump_handler_deleter, hpos, hr]

/-- Witness for C2 at concrete inputs: with two owning references over
`cell3` (backend alive) under `envBad` (removal fails), the first
release is silent and the second runs the deleter, whose trace is the
single backend removal attempt, the log line, and the handler free. -/
theorem claim_C2_witness :
    (releaseTokenRefs envBad cell3 2 2).2 = jump_handler_deleter envBad cell3
    ∧ (releaseTokenRefs envBad cell3 1 2).2 = []
    ∧ jump_handler_deleter envBad cell3 =
        [Eff.rclRemoveJumpCallback,
         Eff.logError "Failed to remove time jump callback",
         Eff.deleteJumpHandler] := by
  obtain ⟨h1, h2, _, h4, _⟩ := claim_C2 envBad cell3 2 1 (by decide) (by decide)
  exact ⟨h1, h2, h4 (by decide) (by decide)⟩

/-- One-step unfolding of `releaseStrongRefs`. -/
theorem releaseStrongRefs_succ (env : RclEnv) (n : Nat) (cell : ClockCell) :
    releaseStrongRefs env (n + 1) cell =
      ((releaseStrongRefs env n (releaseStrongRef env cell).1).1,
       (releaseStrongRef env cell).2 ++
         (releaseStrongRefs env n (releaseStrongRef env cell).1).2) := rfl

/-- Releasing fewer strong references than are held produces no effects,
performs no finalization, and leaves the remaining strong count. -/
theorem releaseStrongRefs_not_last (env : RclEnv) :
    ∀ k n (cell : ClockCell), cell.strong_count = n → k < n →
      (releaseStrongRefs env k cell).2 = []
      ∧ (releaseStrongRefs env k cell).1.strong_count = n - k
      ∧ (releaseStrongRefs env k cell).1.finalized = cell.finalized := by
  intro k
  induction k with
  | zero =>
    intro n cell hc _
    exact ⟨rfl, by simp [releaseStrongRefs, hc], rfl⟩
  | succ k ih =>
    intro n cell hc hk
    match n with
    | 0 => omega
    | 1 => omega
    | m + 2 =>
      rw [releaseStrongRefs_succ]
      have hstep : releaseStrongRef env cell = ({ cell with strong_count := m + 1 }, []) := by
        simp [releaseStrongRef, hc]
      rw [hstep]
      have hrec := ih (m + 1) { cell with strong_count := m + 1 } rfl (by omega)
      refine ⟨by simpa using hrec.1, ?_, by simpa using hrec.2.2⟩
      simp only [hrec.2.1]
      omega

/-- Releasing exactly the held number of strong references emits the
clock deleter as the whole trace and leaves the cell finalized and
freed with strong count zero. -/
theorem releaseStrongRefs_last (env : RclEnv) :
    ∀ n (cell : ClockCell), cell.strong_count = n + 1 →
      (releaseStrongRefs env (n + 1) cell).2 = rcl_clock_deleter env
      ∧ (releaseStrongRefs env (n + 1) cell).1.strong_count = 0
      ∧ (releaseStrongRefs env (n + 1) cell).1.finalized = true
      ∧ (releaseStrongRefs env (n + 1) cell).1.freed = true := by
  intro n
  induction n with
  | zero =>
    intro cell hc
    rw [releaseStrongRefs_succ]
    have hstep : releaseStrongRef env cell =
        ({ cell with strong_count := 0, finalized := true, freed := true },
         rcl_clock_deleter env) := by
      simp [releaseStrongRef, hc]
    rw [hstep]
    simp [releaseStrongRefs]
  | succ n ih =>
    intro cell hc
    rw [releaseStrongRefs_succ]
    have hstep : releaseStrongRef env cell = ({ cell with strong_count := n + 1 }, []) := by
      simp [releaseStrongRef, hc]
    rw [hstep]
    have hrec := ih { cell with strong_count := n + 1 } rfl
    exact ⟨by simpa using hrec.1, by simpa using hrec.2.1,
           by simpa using hrec.2.2.1, by simpa using hrec.2.2.2⟩

/-- The clock deleter calls `rcl_clock_fini` exactly once. -/
theorem rcl_clock_deleter_fini_once (env : RclEnv) :
    (rcl_clock_deleter env).count Eff.rclClockFini = 1 := by
  by_cases h : env.fini_ret ≠ RCL_RET_OK <;> simp [rcl_clock_deleter, h]

/-- C8: with `n` strong references (Clock copies) aliasing the backend,
releasing fewer than `n` of them finalizes nothing and emits no effects,
while releasing all `n` calls `rcl_clock_fini` exactly once — at the
last release, whose trace is exactly the clock deleter; neither the
token deleter nor `create_jump_callback` ever finalizes or frees the
backend. -/
theorem claim_C8 (env : RclEnv) (cell : ClockCell) (n k : Nat)
    (hc : cell.strong_count = n) (hn : 1 ≤ n) (hk : k < n) :
    (releaseStrongRefs env n cell).2.count Eff.rclClockFini = 1
    ∧ (releaseStrongRefs env n cell).2 = rcl_clock_deleter env
    ∧ (releaseStrongRefs env k cell).2 = []
    ∧ (releaseStrongRefs env k cell).1.finalized = cell.finalized
    ∧ (∀ env2 cell2, Eff.rclClockFini ∉ jump_handler_deleter env2 cell2
        ∧ Eff.deleteRclClock ∉ jump_handler_deleter env2 cell2)
    ∧ (∀ c2 env2 hp hq th,
        Eff.rclClockFini ∉ (Clock.create_jump_callback c2 env2 hp hq th).trace) := by
  obtain ⟨m, rfl⟩ : ∃ m, n = m + 1 := ⟨n - 1, by omega⟩
  have hlast := releaseStrongRefs_last env m cell hc
  have hnot := releaseStrongRefs_not_last env k (m + 1) cell hc hk
  refine ⟨?_, hlast.1, hnot.1, hnot.2.2, ?_, ?_⟩
  · rw [hlast.1]
    exact rcl_clock_deleter_fini_once env
  · intro env2 cell2
    constructor <;>
      by_cases hs : 0 < cell2.strong_count <;>
        by_cases hr : env2.remove_jump_ret ≠ RCL_RET_OK <;>
          simp [jump_handler_deleter, hs, hr]
  · intro c2 env2 hp hq th
    by_cases hr : env2.add_jump_ret ≠ RCL_RET_OK <;>
      simp [Clock.create_jump_callback, hr]

/-- Witness for C8 at concrete inputs: `cell3` holds three strong
references under `envOK`; releasing one or two finalizes nothing and
emits nothing, releasing all three emits `rcl_clock_fini` exactly
once. -/
theorem claim_C8_witness :
    (releaseStrongRefs envOK 3 cell3).2.count Eff.rclClockFini = 1
    ∧ (releaseStrongRefs envOK 2 cell3).2 = []
    ∧ (releaseStrongRefs envOK 2 cell3).1.finalized = cell3.finalized := by
  obtain ⟨h1, _, h3, h4, _, _⟩ := claim_C8 envOK cell3 3 2 (by decide) (by decide) (by decide)
  exact ⟨h1, h3, h4⟩

/-- C4: a token produced by `create_jump_callback` refers back to the
clock only through a weak reference (`deleter_clock_ref` is weak);
registering it leaves the backend's strong count unchanged, so a live
token never extends the backend's lifetime: releasing all strong
references still finalizes and destroys the backend even with the
registration's weak reference outstanding; and the weak reference is
upgraded only at deregistration time, where a failed upgrade (backend
gone) makes the deleter skip the backend entirely. -/
theorem claim_C4 (c : Clock) (env : RclEnv) (hp hq : Bool) (th : JumpThreshold)
    (cell : ClockCell) (tok : JumpHandlerToken)
    (htok : (Clock.create_jump_callback c env hp hq th).result = .ok tok) :
    tok.deleter_clock_ref = ClockRef.weak
    ∧ (registerTokenRefs cell).strong_count = cell.strong_count
    ∧ (∀ n, cell.strong_count = n + 1 →
        (releaseStrongRefs env (n + 1) (registerTokenRefs cell)).2.count Eff.rclClockFini = 1
        ∧ (releaseStrongRefs env (n + 1) (registerTokenRefs cell)).1.strong_count = 0
        ∧ (releaseStrongRefs env (n + 1) (registerTokenRefs cell)).1.freed = true)
    ∧ (cell.strong_count = 0 →
        jump_handler_deleter env cell = [Eff.deleteJumpHandler]) := by
  refine ⟨?_, rfl, ?_, ?_⟩
  · unfold Clock.create_jump_callback at htok
    split at htok
    · exact Except.noConfusion htok
    · simp only [Except.ok.injEq] at htok
      subst htok
      rfl
  · intro n hc
    have hreg : (registerTokenRefs cell).strong_count = n + 1 := hc
    have hlast := releaseStrongRefs_last env n (registerTokenRefs cell) hreg
    refine ⟨?_, hlast.2.1, hlast.2.2.2⟩
    rw [hlast.1]
    exact rcl_clock_deleter_fini_once env
  · intro hz
    simp [jump_handler_deleter, hz]

/-- Witness for C4 at concrete inputs: the token returned under `envOK`
carries a weak back-link, and registering over `cell3` leaves its three
strong references intact while full release still finalizes exactly
once. -/
theorem claim_C4_witness :
    tokenSample.deleter_clock_ref = ClockRef.weak
    ∧ (registerTokenRefs cell3).strong_count = cell3.strong_count
    ∧ (releaseStrongRefs envOK 3 (registerTokenRefs cell3)).2.count Eff.rclClockFini = 1 := by
  obtain ⟨h1, h2, h3, _⟩ :=
    claim_C4 steadyClock envOK true true thSample cell3 tokenSample rfl
  exact ⟨h1, h2, (h3 2 rfl).1⟩
